import Mathlib

/-!
Verification of the RISC-V 64 module (src/riscv64.c) of a post-mortem
kernel memory analysis tool: shallow embedding of the page-table walkers,
the address classifier, the PTE flag formatter, the layout resolver and
the crash register extractor, together with proofs of the specified
properties.

Machine words are modelled as `Nat`; the C arithmetic involved never
wraps a 64-bit word on the paths that matter (shifts are bounded by the
54-bit frame/flag mask), so no explicit `% 2 ^ 64` is needed.
-/

namespace Riscv64

/-! ### Paging constants

The module only supports 4 KiB pages (`riscv64_page_type_init`,
src/riscv64.c lines 403-436, accepts only `pagesize = 0x1000`).
`PAGESHIFT`, `PAGESIZE`, `PAGEOFFSET`, `PAGEBASE`, `PTOB` and the
per-level index macros live in the repository's `defs.h`, which is not
under src/. -/

/-- Modelled from the spec: page size is 4096 bytes (4 KiB paging only). -/
def PAGESIZE : Nat := 4096

/-- Modelled from the spec: `page_shift` for 4 KiB pages. -/
def PAGESHIFT : Nat := 12

/-- Modelled from the spec: `PAGEOFFSET(X)` keeps the low `page_shift` bits
(the C macro is `X & (PAGESIZE() - 1)`). -/
def pageOffsetOf (x : Nat) : Nat := x &&& (PAGESIZE - 1)

/-- Modelled from the spec: `PAGEBASE(X)` clears the low `page_shift` bits
(the C macro is `X & pagemask`). On `Nat` this is `x / 4096 * 4096`. -/
def pageBase (x : Nat) : Nat := x / PAGESIZE * PAGESIZE

/-- Modelled from the spec: `PTOB(X)` converts a frame number to a byte
address, `X << page_shift`. -/
def PTOB (x : Nat) : Nat := x <<< PAGESHIFT

/-- Modelled from the spec: the architecture-defined frame/flag mask the
walker applies to each raw entry (PFN field bits 53:10 plus the low flag
bits; `PTE_PFN_PROT_MASK` in `defs.h`). -/
def PTE_PFN_PROT_MASK : Nat := 0x3fffffffffffff

/-- Modelled from the spec: the frame-shift constant separating the
physical frame number field from the flag bits (`_PAGE_PFN_SHIFT`). -/
def PAGE_PFN_SHIFT : Nat := 10

/-- `_PAGE_PRESENT`: bit 0, from the `riscv64_machine_specific`
initializer, src/riscv64.c line 59. -/
def PAGE_PRESENT : Nat := 1

/-! ### Per-level index functions

Modelled from the spec: each paging level consumes a 9-bit slice of the
virtual address (512 entries per 4 KiB table), bottom slice starting at
bit 12; the depth-specific top-level slices start at bit 30 (3-level),
39 (4-level) and 48 (5-level). These are the `*_index_l{3,4,5}_4k`
macros of `defs.h`. -/

/-- Modelled from the spec: 3-level PGD index, bits 38:30. -/
def pgd_index_l3_4k (addr : Nat) : Nat := (addr >>> 30) &&& 511

/-- Modelled from the spec: 3-level PMD index, bits 29:21. -/
def pmd_index_l3_4k (addr : Nat) : Nat := (addr >>> 21) &&& 511

/-- Modelled from the spec: 3-level PTE index, bits 20:12. -/
def pte_index_l3_4k (addr : Nat) : Nat := (addr >>> 12) &&& 511

/-- Modelled from the spec: 4-level PGD index, bits 47:39. -/
def pgd_index_l4_4k (addr : Nat) : Nat := (addr >>> 39) &&& 511

/-- Modelled from the spec: 4-level PUD index, bits 38:30. -/
def pud_index_l4_4k (addr : Nat) : Nat := (addr >>> 30) &&& 511

/-- Modelled from the spec: 4-level PMD index, bits 29:21. -/
def pmd_index_l4_4k (addr : Nat) : Nat := (addr >>> 21) &&& 511

/-- Modelled from the spec: 4-level PTE index, bits 20:12. -/
def pte_index_l4_4k (addr : Nat) : Nat := (addr >>> 12) &&& 511

/-- Modelled from the spec: 5-level PGD index, bits 56:48. -/
def pgd_index_l5_4k (addr : Nat) : Nat := (addr >>> 48) &&& 511

/-- Modelled from the spec: 5-level P4D index, bits 47:39. -/
def p4d_index_l5_4k (addr : Nat) : Nat := (addr >>> 39) &&& 511

/-- Modelled from the spec: a dedicated 5-level PMD index function would
take the same bits 29:21 slice. -/
def pmd_index_l5_4k (addr : Nat) : Nat := (addr >>> 21) &&& 511

/-- Modelled from the spec: a dedicated 5-level PTE index function would
take the same bits 20:12 slice. -/
def pte_index_l5_4k (addr : Nat) : Nat := (addr >>> 12) &&& 511

/-! ### Memory reader and walk results -/

/-- The memory-reader collaborator: a 64-bit word at a byte address, in
kernel-virtual (`KVADDR`) or physical (`PHYSADDR`) space. -/
structure Mem where
  readK : Nat → Nat
  readP : Nat → Nat

/-- One table-fill call to the memory reader (`FILL_PGD`/`FILL_P4D`/
`FILL_PUD`/`FILL_PMD`/`FILL_PTBL`): address space and fill base. -/
inductive Fill where
  | kv (base : Nat)
  | phys (base : Nat)
deriving DecidableEq, Repr

/-- Outcome of one `vtop` walk: success with a physical address, the
`no_page` ("invalid") exit for a zero raw entry, or a leaf entry whose
present bit is clear. -/
inductive VtopResult where
  | found (paddr : Nat)
  | notPresent (pte : Nat)
  | invalid
deriving DecidableEq, Repr

/-! ### 3-level walk (riscv64_vtop_3level_4k, src/riscv64.c lines 438-499)

Each `l3_*` definition is the value of the corresponding local variable
of the C function, as a function of the memory image, table root and
virtual address. The PGD level fills from the root pointer itself in
kernel-virtual space and picks the word at `PAGEOFFSET(pgd_ptr)`; lower
levels fill from `PAGEBASE(pt_phys)` in physical space and pick the word
at `PAGEOFFSET(8 * index)`. -/

/-- `pgd_val` of the 3-level walk (lines 447-449). -/
def l3_pgd_val (mem : Mem) (pgd vaddr : Nat) : Nat :=
  mem.readK (pgd + pageOffsetOf (pgd + 8 * pgd_index_l3_4k vaddr))

/-- `pt_phys` after the PGD level of the 3-level walk (lines 454-455). -/
def l3_pt_after_pgd (mem : Mem) (pgd vaddr : Nat) : Nat :=
  ((l3_pgd_val mem pgd vaddr &&& PTE_PFN_PROT_MASK) >>> PAGE_PFN_SHIFT) <<< PAGESHIFT

/-- `pmd_val` of the 3-level walk (lines 458-460). -/
def l3_pmd_val (mem : Mem) (pgd vaddr : Nat) : Nat :=
  mem.readP (pageBase (l3_pt_after_pgd mem pgd vaddr) + pageOffsetOf (8 * pmd_index_l3_4k vaddr))

/-- `pt_phys` after the PMD level of the 3-level walk (lines 465-466). -/
def l3_pt_after_pmd (mem : Mem) (pgd vaddr : Nat) : Nat :=
  ((l3_pmd_val mem pgd vaddr &&& PTE_PFN_PROT_MASK) >>> PAGE_PFN_SHIFT) <<< PAGESHIFT

/-- `pte_val` of the 3-level walk (lines 469-471). -/
def l3_pte_val (mem : Mem) (pgd vaddr : Nat) : Nat :=
  mem.readP (pageBase (l3_pt_after_pmd mem pgd vaddr) + pageOffsetOf (8 * pte_index_l3_4k vaddr))

/-- Masked leaf entry of the 3-level walk (line 476). -/
def l3_pte_masked (mem : Mem) (pgd vaddr : Nat) : Nat :=
  l3_pte_val mem pgd vaddr &&& PTE_PFN_PROT_MASK

/-- `pte_pfn` of the 3-level walk (line 477). -/
def l3_pte_pfn (mem : Mem) (pgd vaddr : Nat) : Nat :=
  l3_pte_masked mem pgd vaddr >>> PAGE_PFN_SHIFT

/-- The table fills performed by a full 3-level walk, in order. -/
def l3_fills (mem : Mem) (pgd vaddr : Nat) : List Fill :=
  [Fill.kv pgd,
   Fill.phys (pageBase (l3_pt_after_pgd mem pgd vaddr)),
   Fill.phys (pageBase (l3_pt_after_pmd mem pgd vaddr))]

/-- `riscv64_vtop_3level_4k` (src/riscv64.c lines 438-499): result plus
the list of table fills performed.  Each raw entry is checked against
zero before masking; the present bit is only tested at the leaf. -/
def riscv64_vtop_3level_4k (mem : Mem) (pgd vaddr : Nat) : VtopResult × List Fill :=
  if l3_pgd_val mem pgd vaddr = 0 then
    (.invalid, [Fill.kv pgd])
  else if l3_pmd_val mem pgd vaddr = 0 then
    (.invalid, (l3_fills mem pgd vaddr).take 2)
  else if l3_pte_val mem pgd vaddr = 0 then
    (.invalid, l3_fills mem pgd vaddr)
  else if l3_pte_masked mem pgd vaddr &&& PAGE_PRESENT = 0 then
    (.notPresent (l3_pte_masked mem pgd vaddr), l3_fills mem pgd vaddr)
  else
    (.found (PTOB (l3_pte_pfn mem pgd vaddr) + pageOffsetOf vaddr), l3_fills mem pgd vaddr)

/-! ### 4-level walk (riscv64_vtop_4level_4k, src/riscv64.c lines 501-574) -/

/-- `pgd_val` of the 4-level walk (lines 511-513). -/
def l4_pgd_val (mem : Mem) (pgd vaddr : Nat) : Nat :=
  mem.readK (pgd + pageOffsetOf (pgd + 8 * pgd_index_l4_4k vaddr))

/-- `pt_phys` after the PGD level of the 4-level walk (lines 518-519). -/
def l4_pt_after_pgd (mem : Mem) (pgd vaddr : Nat) : Nat :=
  ((l4_pgd_val mem pgd vaddr &&& PTE_PFN_PROT_MASK) >>> PAGE_PFN_SHIFT) <<< PAGESHIFT

/-- `pud_val` of the 4-level walk (lines 522-524). -/
def l4_pud_val (mem : Mem) (pgd vaddr : Nat) : Nat :=
  mem.readP (pageBase (l4_pt_after_pgd mem pgd vaddr) + pageOffsetOf (8 * pud_index_l4_4k vaddr))

/-- `pt_phys` after the PUD level of the 4-level walk (lines 529-530). -/
def l4_pt_after_pud (mem : Mem) (pgd vaddr : Nat) : Nat :=
  ((l4_pud_val mem pgd vaddr &&& PTE_PFN_PROT_MASK) >>> PAGE_PFN_SHIFT) <<< PAGESHIFT

/-- `pmd_val` of the 4-level walk (lines 533-535). -/
def l4_pmd_val (mem : Mem) (pgd vaddr : Nat) : Nat :=
  mem.readP (pageBase (l4_pt_after_pud mem pgd vaddr) + pageOffsetOf (8 * pmd_index_l4_4k vaddr))

/-- `pt_phys` after the PMD level of the 4-level walk (lines 540-541). -/
def l4_pt_after_pmd (mem : Mem) (pgd vaddr : Nat) : Nat :=
  ((l4_pmd_val mem pgd vaddr &&& PTE_PFN_PROT_MASK) >>> PAGE_PFN_SHIFT) <<< PAGESHIFT

/-- `pte_val` of the 4-level walk (lines 544-546). -/
def l4_pte_val (mem : Mem) (pgd vaddr : Nat) : Nat :=
  mem.readP (pageBase (l4_pt_after_pmd mem pgd vaddr) + pageOffsetOf (8 * pte_index_l4_4k vaddr))

/-- Masked leaf entry of the 4-level walk (line 551). -/
def l4_pte_masked (mem : Mem) (pgd vaddr : Nat) : Nat :=
  l4_pte_val mem pgd vaddr &&& PTE_PFN_PROT_MASK

/-- `pte_pfn` of the 4-level walk (line 552). -/
def l4_pte_pfn (mem : Mem) (pgd vaddr : Nat) : Nat :=
  l4_pte_masked mem pgd vaddr >>> PAGE_PFN_SHIFT

/-- The table fills performed by a full 4-level walk, in order. -/
def l4_fills (mem : Mem) (pgd vaddr : Nat) : List Fill :=
  [Fill.kv pgd,
   Fill.phys (pageBase (l4_pt_after_pgd mem pgd vaddr)),
   Fill.phys (pageBase (l4_pt_after_pud mem pgd vaddr)),
   Fill.phys (pageBase (l4_pt_after_pmd mem pgd vaddr))]

/-- `riscv64_vtop_4level_4k` (src/riscv64.c lines 501-574). -/
def riscv64_vtop_4level_4k (mem : Mem) (pgd vaddr : Nat) : VtopResult × List Fill :=
  if l4_pgd_val mem pgd vaddr = 0 then
    (.invalid, [Fill.kv pgd])
  else if l4_pud_val mem pgd vaddr = 0 then
    (.invalid, (l4_fills mem pgd vaddr).take 2)
  else if l4_pmd_val mem pgd vaddr = 0 then
    (.invalid, (l4_fills mem pgd vaddr).take 3)
  else if l4_pte_val mem pgd vaddr = 0 then
    (.invalid, l4_fills mem pgd vaddr)
  else if l4_pte_masked mem pgd vaddr &&& PAGE_PRESENT = 0 then
    (.notPresent (l4_pte_masked mem pgd vaddr), l4_fills mem pgd vaddr)
  else
    (.found (PTOB (l4_pte_pfn mem pgd vaddr) + pageOffsetOf vaddr), l4_fills mem pgd vaddr)

/-! ### 5-level walk (riscv64_vtop_5level_4k, src/riscv64.c lines 576-661)

The PGD and P4D levels use the 5-level index functions; the PUD, PMD and
PTE levels reuse the 4-level index functions, exactly as in the source
(lines 610, 622 and 633). -/

/-- `pgd_val` of the 5-level walk (lines 587-589). -/
def l5_pgd_val (mem : Mem) (pgd vaddr : Nat) : Nat :=
  mem.readK (pgd + pageOffsetOf (pgd + 8 * pgd_index_l5_4k vaddr))

/-- `pt_phys` after the PGD level of the 5-level walk (lines 594-595). -/
def l5_pt_after_pgd (mem : Mem) (pgd vaddr : Nat) : Nat :=
  ((l5_pgd_val mem pgd vaddr &&& PTE_PFN_PROT_MASK) >>> PAGE_PFN_SHIFT) <<< PAGESHIFT

/-- `p4d_val` of the 5-level walk (lines 598-600). -/
def l5_p4d_val (mem : Mem) (pgd vaddr : Nat) : Nat :=
  mem.readP (pageBase (l5_pt_after_pgd mem pgd vaddr) + pageOffsetOf (8 * p4d_index_l5_4k vaddr))

/-- `pt_phys` after the P4D level of the 5-level walk (lines 605-606). -/
def l5_pt_after_p4d (mem : Mem) (pgd vaddr : Nat) : Nat :=
  ((l5_p4d_val mem pgd vaddr &&& PTE_PFN_PROT_MASK) >>> PAGE_PFN_SHIFT) <<< PAGESHIFT

/-- `pud_val` of the 5-level walk (lines 609-611); note the 4-level PUD
index function. -/
def l5_pud_val (mem : Mem) (pgd vaddr : Nat) : Nat :=
  mem.readP (pageBase (l5_pt_after_p4d mem pgd vaddr) + pageOffsetOf (8 * pud_index_l4_4k vaddr))

/-- `pt_phys` after the PUD level of the 5-level walk (lines 616-617). -/
def l5_pt_after_pud (mem : Mem) (pgd vaddr : Nat) : Nat :=
  ((l5_pud_val mem pgd vaddr &&& PTE_PFN_PROT_MASK) >>> PAGE_PFN_SHIFT) <<< PAGESHIFT

/-- `pmd_val` of the 5-level walk (lines 620-622); note the 4-level PMD
index function. -/
def l5_pmd_val (mem : Mem) (pgd vaddr : Nat) : Nat :=
  mem.readP (pageBase (l5_pt_after_pud mem pgd vaddr) + pageOffsetOf (8 * pmd_index_l4_4k vaddr))

/-- `pt_phys` after the PMD level of the 5-level walk (lines 627-628). -/
def l5_pt_after_pmd (mem : Mem) (pgd vaddr : Nat) : Nat :=
  ((l5_pmd_val mem pgd vaddr &&& PTE_PFN_PROT_MASK) >>> PAGE_PFN_SHIFT) <<< PAGESHIFT

/-- `pte_val` of the 5-level walk (lines 631-633); note the 4-level PTE
index function. -/
def l5_pte_val (mem : Mem) (pgd vaddr : Nat) : Nat :=
  mem.readP (pageBase (l5_pt_after_pmd mem pgd vaddr) + pageOffsetOf (8 * pte_index_l4_4k vaddr))

/-- Masked leaf entry of the 5-level walk (line 638). -/
def l5_pte_masked (mem : Mem) (pgd vaddr : Nat) : Nat :=
  l5_pte_val mem pgd vaddr &&& PTE_PFN_PROT_MASK

/-- `pte_pfn` of the 5-level walk (line 639). -/
def l5_pte_pfn (mem : Mem) (pgd vaddr : Nat) : Nat :=
  l5_pte_masked mem pgd vaddr >>> PAGE_PFN_SHIFT

/-- The table fills performed by a full 5-level walk, in order. -/
def l5_fills (mem : Mem) (pgd vaddr : Nat) : List Fill :=
  [Fill.kv pgd,
   Fill.phys (pageBase (l5_pt_after_pgd mem pgd vaddr)),
   Fill.phys (pageBase (l5_pt_after_p4d mem pgd vaddr)),
   Fill.phys (pageBase (l5_pt_after_pud mem pgd vaddr)),
   Fill.phys (pageBase (l5_pt_after_pmd mem pgd vaddr))]

/-- `riscv64_vtop_5level_4k` (src/riscv64.c lines 576-661). -/
def riscv64_vtop_5level_4k (mem : Mem) (pgd vaddr : Nat) : VtopResult × List Fill :=
  if l5_pgd_val mem pgd vaddr = 0 then
    (.invalid, [Fill.kv pgd])
  else if l5_p4d_val mem pgd vaddr = 0 then
    (.invalid, (l5_fills mem pgd vaddr).take 2)
  else if l5_pud_val mem pgd vaddr = 0 then
    (.invalid, (l5_fills mem pgd vaddr).take 3)
  else if l5_pmd_val mem pgd vaddr = 0 then
    (.invalid, (l5_fills mem pgd vaddr).take 4)
  else if l5_pte_val mem pgd vaddr = 0 then
    (.invalid, l5_fills mem pgd vaddr)
  else if l5_pte_masked mem pgd vaddr &&& PAGE_PRESENT = 0 then
    (.notPresent (l5_pte_masked mem pgd vaddr), l5_fills mem pgd vaddr)
  else
    (.found (PTOB (l5_pte_pfn mem pgd vaddr) + pageOffsetOf vaddr), l5_fills mem pgd vaddr)

/-- The three paging depths selected by `riscv64_page_type_init`
(src/riscv64.c lines 421-423): `VM_L3_4K`, `VM_L4_4K`, `VM_L5_4K`. -/
inductive VmMode where
  | l3
  | l4
  | l5
deriving DecidableEq, Repr

/-- Depth dispatch as in the switches of `riscv64_uvtop` (lines 884-894)
and `riscv64_kvtop` (lines 919-929). -/
def vtopAtDepth : VmMode → Mem → Nat → Nat → VtopResult × List Fill
  | .l3 => riscv64_vtop_3level_4k
  | .l4 => riscv64_vtop_4level_4k
  | .l5 => riscv64_vtop_5level_4k

/-! ### Address classifier (src/riscv64.c lines 296-338)

The resolved address-space layout: the fields of
`struct machine_specific` written by `riscv64_get_va_range` and
`riscv64_get_phys_ram_base`. `machdep->kvbase` is set to
`machspec->page_offset` in `riscv64_init` (line 974). -/

structure MachineSpecific where
  page_offset : Nat
  vmalloc_start_addr : Nat
  vmalloc_end : Nat
  vmemmap_vaddr : Nat
  vmemmap_end : Nat
  modules_vaddr : Nat
  modules_end : Nat
  phys_base : Nat
deriving DecidableEq, Repr

/-- `machdep->kvbase`, set from `machspec->page_offset` at line 974. -/
def machdepKvbase (ms : MachineSpecific) : Nat := ms.page_offset

/-- `riscv64_IS_VMALLOC_ADDR` (src/riscv64.c lines 332-338): vmalloc,
vmemmap or modules range, all bounds inclusive. -/
def riscv64_IS_VMALLOC_ADDR (ms : MachineSpecific) (vaddr : Nat) : Bool :=
  (decide (ms.vmalloc_start_addr ≤ vaddr) && decide (vaddr ≤ ms.vmalloc_end)) ||
  (decide (ms.vmemmap_vaddr ≤ vaddr) && decide (vaddr ≤ ms.vmemmap_end)) ||
  (decide (ms.modules_vaddr ≤ vaddr) && decide (vaddr ≤ ms.modules_end))

/-- `riscv64_is_kvaddr` (src/riscv64.c lines 296-303). -/
def riscv64_is_kvaddr (ms : MachineSpecific) (vaddr : Nat) : Bool :=
  if riscv64_IS_VMALLOC_ADDR ms vaddr then true
  else decide (vaddr ≥ machdepKvbase ms)

/-- `riscv64_is_uvaddr` (src/riscv64.c lines 305-312).  The second C
parameter (`struct task_context *unused`) is modelled as an opaque
optional value; the body never inspects it. -/
def riscv64_is_uvaddr (ms : MachineSpecific) (vaddr : Nat) (_unused : Option Nat) : Bool :=
  if riscv64_IS_VMALLOC_ADDR ms vaddr then false
  else decide (vaddr < machdepKvbase ms)

/-! ### Kernel translation entry point (riscv64_kvtop, lines 897-930) -/

/-- Modelled from the spec: `VTOP`, the linear-map offset from `defs.h`,
translating a low-memory kernel virtual address by the page-offset base
and the physical RAM base. -/
def VTOP (ms : MachineSpecific) (x : Nat) : Nat :=
  x - machdepKvbase ms + ms.phys_base

/-- The ambient state `riscv64_kvtop` consults: the resolved layout,
`vt->vmalloc_start`, the paging depth, `vt->kernel_pgd[0]` and the
memory image. -/
structure KvtopEnv where
  ms : MachineSpecific
  vt_vmalloc_start : Nat
  mode : VmMode
  kernel_pgd : Nat
  mem : Mem

/-- Outcome of `riscv64_kvtop`: the C return value, the value last
written through the `physaddr_t *paddr` out-parameter (`none` when the
function never writes it), and the table fills performed. -/
structure KvtopOut where
  ret : Bool
  paddr_write : Option Nat
  fills : List Fill
deriving DecidableEq, Repr

/-- `riscv64_kvtop` (src/riscv64.c lines 897-930).  A non-kernel address
returns FALSE before touching `*paddr`; with no vmalloc bootstrap value
or for a non-vmalloc address without verbose, the linear map answers
directly; otherwise the depth-selected walker runs after `*paddr = 0`. -/
def riscv64_kvtop (env : KvtopEnv) (kvaddr : Nat) (verbose : Bool) : KvtopOut :=
  if !riscv64_is_kvaddr env.ms kvaddr then
    ⟨false, none, []⟩
  else if env.vt_vmalloc_start = 0 then
    ⟨true, some (VTOP env.ms kvaddr), []⟩
  else if !riscv64_IS_VMALLOC_ADDR env.ms kvaddr && !verbose then
    ⟨true, some (VTOP env.ms kvaddr), []⟩
  else
    match vtopAtDepth env.mode env.mem env.kernel_pgd kvaddr with
    | (.found pa, fills) => ⟨true, some pa, fills⟩
    | (_, fills) => ⟨false, some 0, fills⟩

/-! ### PTE flag formatter (riscv64_translate_pte, lines 344-401)

The verbose path prints the PTE column, returns early when the present
bit is clear, and otherwise prints the physical address and the flag
section: the asserted flags in the fixed `CHECK_PAGE_FLAG` order joined
by a bar, or the literal text for a zero entry. -/

/-- The flag-bit table of `riscv64_machine_specific` (src/riscv64.c
lines 59-67) in the order the `CHECK_PAGE_FLAG` invocations test them
(lines 385-393). -/
def riscv64PageFlags : List (String × Nat) :=
  [("PRESENT", 1), ("READ", 2), ("WRITE", 4), ("EXEC", 8), ("USER", 16),
   ("GLOBAL", 32), ("ACCESSED", 64), ("DIRTY", 128), ("SOFT", 256)]

/-- The text produced by the sequence of `CHECK_PAGE_FLAG` macros: each
flag whose bit is nonzero and asserted in `pte` prints its name, with a
bar before it iff an earlier flag already printed (`others`). -/
def emitFlagsAux (pte : Nat) : List (String × Nat) → Bool → String
  | [], _ => ""
  | (nm, bit) :: rest, others =>
    if bit ≠ 0 ∧ pte &&& bit ≠ 0 then
      (if others then "|" ++ nm else nm) ++ emitFlagsAux pte rest true
    else
      emitFlagsAux pte rest others

/-- The flag section between the parentheses (lines 384-396): the
asserted flags joined by bars, or `no mapping` for a zero entry. -/
def pteFlagSection (pte : Nat) : String :=
  if pte ≠ 0 then emitFlagsAux pte riscv64PageFlags false
  else "no mapping"

/-- The flag section the verbose path of `riscv64_translate_pte`
actually emits for a raw entry: `none` when the function returns before
the flag section because the present bit is clear (lines 366-367). -/
def riscv64_translate_pte_flags (pte : Nat) : Option String :=
  if pte &&& PAGE_PRESENT ≠ 0 then some (pteFlagSection pte) else none

/-! ### Layout resolver (riscv64_get_va_range, lines 215-294) -/

/-- `LINUX(x,y,z)`: the comparable kernel version encoding. -/
def LINUX_VERSION (x y z : Nat) : Nat := (x <<< 16) + (y <<< 8) + z

/-- The debug-metadata store: `pc->read_vmcoreinfo` with the numeric
parse (`htol`) already applied; `none` is a lookup miss. -/
structure Vmcore where
  lookup : String → Option Nat

/-- The fields `riscv64_get_va_range` writes into `machine_specific`. -/
structure VaRange where
  page_offset : Nat
  vmalloc_start_addr : Nat
  vmalloc_end : Nat
  vmemmap_vaddr : Nat
  vmemmap_end : Nat
  kernel_link_addr : Nat
  modules_vaddr : Nat
  modules_end : Nat
deriving DecidableEq, Repr

/-- `riscv64_get_va_range` (src/riscv64.c lines 215-294): reads the six
mandatory keys in order, then — for kernels at or above 5.13 — the two
modules keys; any miss is the fatal `error:` exit (`none`).  Below 5.13
the modules range is assigned from the vmalloc range.  The second
component lists the vmcoreinfo keys consulted, in order. -/
def riscv64_get_va_range (kernel_version : Nat) (vm : Vmcore) :
    Option VaRange × List String :=
  match vm.lookup "NUMBER(PAGE_OFFSET)" with
  | none => (none, ["NUMBER(PAGE_OFFSET)"])
  | some page_offset =>
  match vm.lookup "NUMBER(VMALLOC_START)" with
  | none => (none, ["NUMBER(PAGE_OFFSET)", "NUMBER(VMALLOC_START)"])
  | some vmalloc_start_addr =>
  match vm.lookup "NUMBER(VMALLOC_END)" with
  | none => (none, ["NUMBER(PAGE_OFFSET)", "NUMBER(VMALLOC_START)",
                    "NUMBER(VMALLOC_END)"])
  | some vmalloc_end =>
  match vm.lookup "NUMBER(VMEMMAP_START)" with
  | none => (none, ["NUMBER(PAGE_OFFSET)", "NUMBER(VMALLOC_START)",
                    "NUMBER(VMALLOC_END)", "NUMBER(VMEMMAP_START)"])
  | some vmemmap_vaddr =>
  match vm.lookup "NUMBER(VMEMMAP_END)" with
  | none => (none, ["NUMBER(PAGE_OFFSET)", "NUMBER(VMALLOC_START)",
                    "NUMBER(VMALLOC_END)", "NUMBER(VMEMMAP_START)",
                    "NUMBER(VMEMMAP_END)"])
  | some vmemmap_end =>
  match vm.lookup "NUMBER(KERNEL_LINK_ADDR)" with
  | none => (none, ["NUMBER(PAGE_OFFSET)", "NUMBER(VMALLOC_START)",
                    "NUMBER(VMALLOC_END)", "NUMBER(VMEMMAP_START)",
                    "NUMBER(VMEMMAP_END)", "NUMBER(KERNEL_LINK_ADDR)"])
  | some kernel_link_addr =>
  if kernel_version ≥ LINUX_VERSION 5 13 0 then
    match vm.lookup "NUMBER(MODULES_VADDR)" with
    | none => (none, ["NUMBER(PAGE_OFFSET)", "NUMBER(VMALLOC_START)",
                      "NUMBER(VMALLOC_END)", "NUMBER(VMEMMAP_START)",
                      "NUMBER(VMEMMAP_END)", "NUMBER(KERNEL_LINK_ADDR)",
                      "NUMBER(MODULES_VADDR)"])
    | some modules_vaddr =>
    match vm.lookup "NUMBER(MODULES_END)" with
    | none => (none, ["NUMBER(PAGE_OFFSET)", "NUMBER(VMALLOC_START)",
                      "NUMBER(VMALLOC_END)", "NUMBER(VMEMMAP_START)",
                      "NUMBER(VMEMMAP_END)", "NUMBER(KERNEL_LINK_ADDR)",
                      "NUMBER(MODULES_VADDR)", "NUMBER(MODULES_END)"])
    | some modules_end =>
      (some ⟨page_offset, vmalloc_start_addr, vmalloc_end, vmemmap_vaddr,
             vmemmap_end, kernel_link_addr, modules_vaddr, modules_end⟩,
       ["NUMBER(PAGE_OFFSET)", "NUMBER(VMALLOC_START)",
        "NUMBER(VMALLOC_END)", "NUMBER(VMEMMAP_START)",
        "NUMBER(VMEMMAP_END)", "NUMBER(KERNEL_LINK_ADDR)",
        "NUMBER(MODULES_VADDR)", "NUMBER(MODULES_END)"])
  else
    (some ⟨page_offset, vmalloc_start_addr, vmalloc_end, vmemmap_vaddr,
           vmemmap_end, kernel_link_addr, vmalloc_start_addr, vmalloc_end⟩,
     ["NUMBER(PAGE_OFFSET)", "NUMBER(VMALLOC_START)",
      "NUMBER(VMALLOC_END)", "NUMBER(VMEMMAP_START)",
      "NUMBER(VMEMMAP_END)", "NUMBER(KERNEL_LINK_ADDR)"])

/-! ### Crash register extractor (lines 663-847)

`riscv64_get_crash_notes` (Strategy A) reads one `note_buf`-sized ELF
note per CPU from the `crash_notes` per-cpu pointer, with a dump-format
locator fallback for zero-name notes, validates the note type and name,
and copies the register block; any validation failure jumps to the
common `fail:` exit which frees the snapshot array and returns FALSE
without attaching it.  `riscv64_get_elf_notes` (Strategy B) fetches
every note through the dump-format locator and treats a missing note as
a per-CPU warning. -/

/-- The capture formats distinguished by `DISKDUMP_DUMPFILE()` and
`KDUMP_DUMPFILE()`. -/
inductive DumpKind where
  | diskdump
  | kdump
  | other
deriving DecidableEq, Repr

/-- An ELF note as the extractor sees it: the `Elf64_Nhdr` fields, the
name bytes following the header, and the register block found at
`pr_reg` inside the descriptor (abstracted to one value; `0` is the
all-zero block `calloc` leaves behind). -/
structure PrNote where
  n_namesz : Nat
  n_descsz : Nat
  n_type : Nat
  name : String
  regs : Nat
deriving DecidableEq, Repr

/-- `NT_PRSTATUS` from `elf.h`. -/
def NT_PRSTATUS : Nat := 1

/-- `sizeof(Elf64_Nhdr)` from `elf.h`: three 4-byte words. -/
def ELF64_NHDR_SIZE : Nat := 12

/-- `roundup(x, 4)`. -/
def roundup4 (x : Nat) : Nat := (x + 3) / 4 * 4

/-- `STRNEQ(A, B)`: A begins with B. -/
def STRNEQ (a b : String) : Bool := List.isPrefixOf b.data a.data

/-- The ambient state the two extraction strategies consult. -/
structure NotesEnv where
  cpus : Nat
  dump : DumpKind
  /-- `diskdump_get_prstatus_percpu`. -/
  diskdump_note : Nat → Option PrNote
  /-- `netdump_get_prstatus_percpu`. -/
  netdump_note : Nat → Option PrNote
  /-- `symbol_exists("crash_notes")`. -/
  crash_notes_symbol : Bool
  /-- the `readmem` of the `crash_notes` pointer (lines 704-710). -/
  read_base_ok : Bool
  /-- the `readmem` of cpu `i`'s note buffer (lines 728-733). -/
  readNote : Nat → Option PrNote
  /-- `SIZE(note_buf)`. -/
  note_buf_size : Nat

/-- The dump-format-specific locator selected at lines 747-750 and
826-829. -/
def dumpNote (env : NotesEnv) (i : Nat) : Option PrNote :=
  match env.dump with
  | .diskdump => env.diskdump_note i
  | .kdump => env.netdump_note i
  | .other => none

/-- The note header/name/register block that reaches the sanity checks
of `riscv64_get_crash_notes` for cpu `i` (lines 726-766): `none` when
the buffer read fails or the locator finds nothing for a zero-name
note.  When the locator's note has exactly the trailing-note-free size
it is copied over the buffer, so its name bytes are checked; otherwise
`note` points at the fetched header while `p` still points into the
original buffer. -/
def crashNoteEff (env : NotesEnv) (i : Nat) : Option (Nat × String × Nat) :=
  match env.readNote i with
  | none => none
  | some buf =>
    if buf.n_namesz = 0 ∧ (env.dump = .diskdump ∨ env.dump = .kdump) then
      match dumpNote env i with
      | none => none
      | some fetched =>
        if ELF64_NHDR_SIZE + roundup4 fetched.n_namesz + fetched.n_descsz
            = env.note_buf_size - ELF64_NHDR_SIZE then
          some (fetched.n_type, fetched.name, fetched.regs)
        else
          some (fetched.n_type, buf.name, buf.regs)
    else
      some (buf.n_type, buf.name, buf.regs)

/-- Result of one iteration of the per-CPU loop of
`riscv64_get_crash_notes`: `goto fail`, `continue` with the slot left
zeroed, or a validated register block. -/
inductive CpuStep where
  | fail
  | skip
  | ok (regs : Nat)
deriving DecidableEq, Repr

/-- The type and name sanity checks (lines 771-777) followed by the
register copy (lines 784-789). -/
def crashNoteValidate (ty : Nat) (name : String) (regs : Nat) : CpuStep :=
  if ty ≠ NT_PRSTATUS then .fail
  else if !STRNEQ name "CORE" then .fail
  else .ok regs

/-- One iteration of the per-CPU loop (lines 726-790): a failed buffer
read is `goto fail`; a zero-name note with no locator note is a warning
plus `continue`; everything else runs the sanity checks. -/
def crashNoteStep (env : NotesEnv) (i : Nat) : CpuStep :=
  match env.readNote i with
  | none => .fail
  | some buf =>
    if buf.n_namesz = 0 ∧ (env.dump = .diskdump ∨ env.dump = .kdump) then
      match dumpNote env i with
      | none => .skip
      | some fetched =>
        if ELF64_NHDR_SIZE + roundup4 fetched.n_namesz + fetched.n_descsz
            = env.note_buf_size - ELF64_NHDR_SIZE then
          crashNoteValidate fetched.n_type fetched.name fetched.regs
        else
          crashNoteValidate fetched.n_type buf.name buf.regs
    else
      crashNoteValidate buf.n_type buf.name buf.regs

/-- The per-CPU loop from cpu `i` with `fuel` iterations left: `none`
is the `goto fail` exit, otherwise the list of snapshot slots (a
skipped cpu keeps the zero block `calloc` wrote). -/
def crashNotesLoopFrom (env : NotesEnv) : Nat → Nat → Option (List Nat)
  | 0, _ => some []
  | fuel + 1, i =>
    match crashNoteStep env i with
    | .fail => none
    | .skip =>
      match crashNotesLoopFrom env fuel (i + 1) with
      | none => none
      | some rest => some (0 :: rest)
    | .ok r =>
      match crashNotesLoopFrom env fuel (i + 1) with
      | none => none
      | some rest => some (r :: rest)

/-- Outcome of `riscv64_get_crash_notes`: the C return value, the value
written to `ms->crash_task_regs` (`none` when the function never writes
it), and whether the `panic_task_regs` allocation was freed on the
`fail:` path. -/
structure CrashNotesOutcome where
  ret : Bool
  crash_task_regs_write : Option (List Nat)
  panic_regs_freed : Bool
deriving DecidableEq, Repr

/-- `riscv64_get_crash_notes` (src/riscv64.c lines 678-807). -/
def riscv64_get_crash_notes (env : NotesEnv) : CrashNotesOutcome :=
  if !env.crash_notes_symbol then ⟨false, none, false⟩
  else if !env.read_base_ok then ⟨false, none, false⟩
  else
    match crashNotesLoopFrom env env.cpus 0 with
    | none => ⟨false, none, true⟩
    | some slots => ⟨true, some slots, false⟩

/-- Outcome of `riscv64_get_elf_notes`: the C return value, the value
written to `ms->crash_task_regs`, and the cpus for which the
missing-note warning was recorded. -/
structure ElfNotesOutcome where
  ret : Bool
  crash_task_regs_write : Option (List Nat)
  warned : List Nat
deriving DecidableEq, Repr

/-- `riscv64_get_elf_notes` (src/riscv64.c lines 809-847): nothing to do
for a capture without a per-CPU note locator; otherwise every cpu's
note is fetched, a missing note warns and leaves the slot zeroed, and
the array is always attached with TRUE. -/
def riscv64_get_elf_notes (env : NotesEnv) : ElfNotesOutcome :=
  if !(env.dump = .diskdump ∨ env.dump = .kdump : Bool) then ⟨false, none, []⟩
  else
    ⟨true,
     some ((List.range env.cpus).map fun i =>
       match dumpNote env i with
       | none => 0
       | some nt => nt.regs),
     (List.range env.cpus).filter fun i => (dumpNote env i).isNone⟩

/-! ### Arithmetic helpers -/

/-- `x &&& 4095` is `x % 4096`. -/
theorem and_four95_eq_mod (v : Nat) : v &&& 4095 = v % 4096 := by
  have h := Nat.and_pow_two_sub_one_eq_mod v 12
  norm_num at h
  exact h

/-- A page-aligned base plus a page offset is their bitwise or. -/
theorem ptob_add_pageoffset (p v : Nat) :
    PTOB p + pageOffsetOf v = (p <<< PAGESHIFT) ||| pageOffsetOf v := by
  show p <<< 12 + (v &&& 4095) = p <<< 12 ||| (v &&& 4095)
  have hlt : v &&& 4095 < 4096 := by
    rw [and_four95_eq_mod]
    exact Nat.mod_lt _ (by norm_num)
  have h := Nat.mul_add_lt_is_or (i := 12) (by simpa using hlt) p
  rw [Nat.shiftLeft_eq]
  rw [Nat.mul_comm (2 ^ 12) p] at h
  simpa using h

/-- The low `page_shift` bits of the walk result equal those of the
virtual address. -/
theorem or_pageoffset_mod (p v : Nat) :
    ((p <<< PAGESHIFT) ||| pageOffsetOf v) % PAGESIZE = v % PAGESIZE := by
  rw [← ptob_add_pageoffset p v]
  show (p <<< 12 + (v &&& 4095)) % 4096 = v % 4096
  rw [Nat.shiftLeft_eq, and_four95_eq_mod]
  norm_num
  omega

/-! ### Concrete images used by witnesses -/

/-- A memory image that is zero everywhere. -/
def zeroMem : Mem := ⟨fun _ => 0, fun _ => 0⟩

/-- A memory image whose every word is the entry `0x401`: frame number
`1`, present bit set. -/
def onesMem : Mem := ⟨fun _ => 1025, fun _ => 1025⟩

/-- A memory image whose root table entry is `2 ^ 62`: nonzero raw
value, but zero after masking with the frame/flag mask. -/
def maskedZeroMem : Mem := ⟨fun a => if a = 0 then 4611686018427387904 else 0, fun _ => 0⟩

/-! ### Claims C1-C3: the page-table walkers -/

/-- Claim C1: for every depth in 3, 4, 5, when the walk's raw entry at
each level is nonzero and the leaf's present bit is set (a populated,
self-consistent 4 KiB table), the walk succeeds and returns
`(leaf_frame_field <<< page_shift) ||| (vaddr &&& page_offset_mask)`;
in particular the low `page_shift` bits of the result equal the low
`page_shift` bits of `vaddr`. -/
theorem c1_vtop_success (mem : Mem) (pgd vaddr : Nat) :
    (l3_pgd_val mem pgd vaddr ≠ 0 → l3_pmd_val mem pgd vaddr ≠ 0 →
     l3_pte_val mem pgd vaddr ≠ 0 →
     l3_pte_masked mem pgd vaddr &&& PAGE_PRESENT ≠ 0 →
     (riscv64_vtop_3level_4k mem pgd vaddr).1
        = .found ((l3_pte_pfn mem pgd vaddr <<< PAGESHIFT) ||| pageOffsetOf vaddr)
     ∧ ((l3_pte_pfn mem pgd vaddr <<< PAGESHIFT) ||| pageOffsetOf vaddr) % PAGESIZE
        = vaddr % PAGESIZE)
  ∧ (l4_pgd_val mem pgd vaddr ≠ 0 → l4_pud_val mem pgd vaddr ≠ 0 →
     l4_pmd_val mem pgd vaddr ≠ 0 → l4_pte_val mem pgd vaddr ≠ 0 →
     l4_pte_masked mem pgd vaddr &&& PAGE_PRESENT ≠ 0 →
     (riscv64_vtop_4level_4k mem pgd vaddr).1
        = .found ((l4_pte_pfn mem pgd vaddr <<< PAGESHIFT) ||| pageOffsetOf vaddr)
     ∧ ((l4_pte_pfn mem pgd vaddr <<< PAGESHIFT) ||| pageOffsetOf vaddr) % PAGESIZE
        = vaddr % PAGESIZE)
  ∧ (l5_pgd_val mem pgd vaddr ≠ 0 → l5_p4d_val mem pgd vaddr ≠ 0 →
     l5_pud_val mem pgd vaddr ≠ 0 → l5_pmd_val mem pgd vaddr ≠ 0 →
     l5_pte_val mem pgd vaddr ≠ 0 →
     l5_pte_masked mem pgd vaddr &&& PAGE_PRESENT ≠ 0 →
     (riscv64_vtop_5level_4k mem pgd vaddr).1
        = .found ((l5_pte_pfn mem pgd vaddr <<< PAGESHIFT) ||| pageOffsetOf vaddr)
     ∧ ((l5_pte_pfn mem pgd vaddr <<< PAGESHIFT) ||| pageOffsetOf vaddr) % PAGESIZE
        = vaddr % PAGESIZE) := by
  refine ⟨fun h0 h1 h2 hp => ⟨?_, or_pageoffset_mod _ _⟩,
          fun h0 h1 h2 h3 hp => ⟨?_, or_pageoffset_mod _ _⟩,
          fun h0 h1 h2 h3 h4 hp => ⟨?_, or_pageoffset_mod _ _⟩⟩
  · unfold riscv64_vtop_3level_4k
    rw [if_neg h0, if_neg h1, if_neg h2, if_neg hp]
    show VtopResult.found _ = _
    rw [ptob_add_pageoffset]
  · unfold riscv64_vtop_4level_4k
    rw [if_neg h0, if_neg h1, if_neg h2, if_neg h3, if_neg hp]
    show VtopResult.found _ = _
    rw [ptob_add_pageoffset]
  · unfold riscv64_vtop_5level_4k
    rw [if_neg h0, if_neg h1, if_neg h2, if_neg h3, if_neg h4, if_neg hp]
    show VtopResult.found _ = _
    rw [ptob_add_pageoffset]

/-- Witness for C1 at a concrete populated table: every entry is
`0x401` (frame 1, present), `vaddr = 4660`; all three depths succeed
with physical address `4096 ||| 564 = 4660`, whose low bits match. -/
theorem c1_vtop_success_witness :
    (riscv64_vtop_3level_4k onesMem 0 4660).1 = VtopResult.found 4660
    ∧ (riscv64_vtop_4level_4k onesMem 0 4660).1 = VtopResult.found 4660
    ∧ (riscv64_vtop_5level_4k onesMem 0 4660).1 = VtopResult.found 4660
    ∧ (4660 : Nat) % PAGESIZE = 564 := by
  have h := c1_vtop_success onesMem 0 4660
  refine ⟨(h.1 (by decide) (by decide) (by decide) (by decide)).1.trans (by decide),
          (h.2.1 (by decide) (by decide) (by decide) (by decide) (by decide)).1.trans (by decide),
          (h.2.2 (by decide) (by decide) (by decide) (by decide) (by decide) (by decide)).1.trans (by decide),
          by decide⟩

/-- Claim C2 counterexample: the claim keys the early "invalid" exit to
the entry *masked with the frame/flag mask* being zero, but the code
tests the raw entry (lines 452, 463, 474 etc.).  With a root entry
`2 ^ 62` — nonzero raw, zero after masking — at depth 3 the walk does
not stop at the PGD level: the PMD level is read as well (two
memory-reader calls, not one). -/
theorem c2_counterexample :
    l3_pgd_val maskedZeroMem 0 0 &&& PTE_PFN_PROT_MASK = 0
    ∧ l3_pgd_val maskedZeroMem 0 0 ≠ 0
    ∧ (riscv64_vtop_3level_4k maskedZeroMem 0 0).2.length = 2 := by
  refine ⟨by decide, by decide, by decide⟩

/-- Claim C2 (amended): for every depth in 3, 4, 5, if the *raw* entry
read at some level is zero (earlier levels nonzero), the walk returns
the not-present ("invalid") outcome at that level, and no table entry
at any level below is read: the fills are exactly the levels visited. -/
theorem c2_zero_entry_stops_walk (mem : Mem) (pgd vaddr : Nat) :
    (l3_pgd_val mem pgd vaddr = 0 →
       riscv64_vtop_3level_4k mem pgd vaddr
         = (.invalid, (l3_fills mem pgd vaddr).take 1)
       ∧ (riscv64_vtop_3level_4k mem pgd vaddr).2.length = 1)
  ∧ (l3_pgd_val mem pgd vaddr ≠ 0 → l3_pmd_val mem pgd vaddr = 0 →
       riscv64_vtop_3level_4k mem pgd vaddr
         = (.invalid, (l3_fills mem pgd vaddr).take 2)
       ∧ (riscv64_vtop_3level_4k mem pgd vaddr).2.length = 2)
  ∧ (l3_pgd_val mem pgd vaddr ≠ 0 → l3_pmd_val mem pgd vaddr ≠ 0 →
     l3_pte_val mem pgd vaddr = 0 →
       riscv64_vtop_3level_4k mem pgd vaddr
         = (.invalid, (l3_fills mem pgd vaddr).take 3)
       ∧ (riscv64_vtop_3level_4k mem pgd vaddr).2.length = 3)
  ∧ (l4_pgd_val mem pgd vaddr = 0 →
       riscv64_vtop_4level_4k mem pgd vaddr
         = (.invalid, (l4_fills mem pgd vaddr).take 1)
       ∧ (riscv64_vtop_4level_4k mem pgd vaddr).2.length = 1)
  ∧ (l4_pgd_val mem pgd vaddr ≠ 0 → l4_pud_val mem pgd vaddr = 0 →
       riscv64_vtop_4level_4k mem pgd vaddr
         = (.invalid, (l4_fills mem pgd vaddr).take 2)
       ∧ (riscv64_vtop_4level_4k mem pgd vaddr).2.length = 2)
  ∧ (l4_pgd_val mem pgd vaddr ≠ 0 → l4_pud_val mem pgd vaddr ≠ 0 →
     l4_pmd_val mem pgd vaddr = 0 →
       riscv64_vtop_4level_4k mem pgd vaddr
         = (.invalid, (l4_fills mem pgd vaddr).take 3)
       ∧ (riscv64_vtop_4level_4k mem pgd vaddr).2.length = 3)
  ∧ (l4_pgd_val mem pgd vaddr ≠ 0 → l4_pud_val mem pgd vaddr ≠ 0 →
     l4_pmd_val mem pgd vaddr ≠ 0 → l4_pte_val mem pgd vaddr = 0 →
       riscv64_vtop_4level_4k mem pgd vaddr
         = (.invalid, (l4_fills mem pgd vaddr).take 4)
       ∧ (riscv64_vtop_4level_4k mem pgd vaddr).2.length = 4)
  ∧ (l5_pgd_val mem pgd vaddr = 0 →
       riscv64_vtop_5level_4k mem pgd vaddr
         = (.invalid, (l5_fills mem pgd vaddr).take 1)
       ∧ (riscv64_vtop_5level_4k mem pgd vaddr).2.length = 1)
  ∧ (l5_pgd_val mem pgd vaddr ≠ 0 → l5_p4d_val mem pgd vaddr = 0 →
       riscv64_vtop_5level_4k mem pgd vaddr
         = (.invalid, (l5_fills mem pgd vaddr).take 2)
       ∧ (riscv64_vtop_5level_4k mem pgd vaddr).2.length = 2)
  ∧ (l5_pgd_val mem pgd vaddr ≠ 0 → l5_p4d_val mem pgd vaddr ≠ 0 →
     l5_pud_val mem pgd vaddr = 0 →
       riscv64_vtop_5level_4k mem pgd vaddr
         = (.invalid, (l5_fills mem pgd vaddr).take 3)
       ∧ (riscv64_vtop_5level_4k mem pgd vaddr).2.length = 3)
  ∧ (l5_pgd_val mem pgd vaddr ≠ 0 → l5_p4d_val mem pgd vaddr ≠ 0 →
     l5_pud_val mem pgd vaddr ≠ 0 → l5_pmd_val mem pgd vaddr = 0 →
       riscv64_vtop_5level_4k mem pgd vaddr
         = (.invalid, (l5_fills mem pgd vaddr).take 4)
       ∧ (riscv64_vtop_5level_4k mem pgd vaddr).2.length = 4)
  ∧ (l5_pgd_val mem pgd vaddr ≠ 0 → l5_p4d_val mem pgd vaddr ≠ 0 →
     l5_pud_val mem pgd vaddr ≠ 0 → l5_pmd_val mem pgd vaddr ≠ 0 →
     l5_pte_val mem pgd vaddr = 0 →
       riscv64_vtop_5level_4k mem pgd vaddr
         = (.invalid, (l5_fills mem pgd vaddr).take 5)
       ∧ (riscv64_vtop_5level_4k mem pgd vaddr).2.length = 5) := by
  refine ⟨fun hz => ?_, fun h0 hz => ?_, fun h0 h1 hz => ?_,
          fun hz => ?_, fun h0 hz => ?_, fun h0 h1 hz => ?_, fun h0 h1 h2 hz => ?_,
          fun hz => ?_, fun h0 hz => ?_, fun h0 h1 hz => ?_, fun h0 h1 h2 hz => ?_,
          fun h0 h1 h2 h3 hz => ?_⟩
  · unfold riscv64_vtop_3level_4k; rw [if_pos hz]; exact ⟨rfl, rfl⟩
  · unfold riscv64_vtop_3level_4k; rw [if_neg h0, if_pos hz]; exact ⟨rfl, rfl⟩
  · unfold riscv64_vtop_3level_4k; rw [if_neg h0, if_neg h1, if_pos hz]
    exact ⟨rfl, rfl⟩
  · unfold riscv64_vtop_4level_4k; rw [if_pos hz]; exact ⟨rfl, rfl⟩
  · unfold riscv64_vtop_4level_4k; rw [if_neg h0, if_pos hz]; exact ⟨rfl, rfl⟩
  · unfold riscv64_vtop_4level_4k; rw [if_neg h0, if_neg h1, if_pos hz]
    exact ⟨rfl, rfl⟩
  · unfold riscv64_vtop_4level_4k; rw [if_neg h0, if_neg h1, if_neg h2, if_pos hz]
    exact ⟨rfl, rfl⟩
  · unfold riscv64_vtop_5level_4k; rw [if_pos hz]; exact ⟨rfl, rfl⟩
  · unfold riscv64_vtop_5level_4k; rw [if_neg h0, if_pos hz]; exact ⟨rfl, rfl⟩
  · unfold riscv64_vtop_5level_4k; rw [if_neg h0, if_neg h1, if_pos hz]
    exact ⟨rfl, rfl⟩
  · unfold riscv64_vtop_5level_4k; rw [if_neg h0, if_neg h1, if_neg h2, if_pos hz]
    exact ⟨rfl, rfl⟩
  · unfold riscv64_vtop_5level_4k
    rw [if_neg h0, if_neg h1, if_neg h2, if_neg h3, if_pos hz]
    exact ⟨rfl, rfl⟩

/-- Witness for the amended C2 at the all-zero image: all three depths
stop at the root with exactly one memory-reader call. -/
theorem c2_zero_entry_stops_walk_witness :
    riscv64_vtop_3level_4k zeroMem 0 0 = (VtopResult.invalid, (l3_fills zeroMem 0 0).take 1)
    ∧ riscv64_vtop_4level_4k zeroMem 0 0 = (VtopResult.invalid, (l4_fills zeroMem 0 0).take 1)
    ∧ riscv64_vtop_5level_4k zeroMem 0 0 = (VtopResult.invalid, (l5_fills zeroMem 0 0).take 1)
    ∧ (riscv64_vtop_3level_4k zeroMem 0 0).2.length = 1 := by
  have h := c2_zero_entry_stops_walk zeroMem 0 0
  exact ⟨(h.1 (by decide)).1, (h.2.2.2.1 (by decide)).1,
         (h.2.2.2.2.2.2.2.1 (by decide)).1, (h.1 (by decide)).2⟩

/-- Claim C3: in the 5-level walk the PMD-level and PTE-level reads use
the 4-level index functions while PGD and P4D use the 5-level ones;
moreover the 4-level bottom-slice functions coincide everywhere with
their dedicated 5-level counterparts (so the reuse is semantically
harmless), while the top-level functions genuinely differ. -/
theorem c3_five_level_index_reuse (mem : Mem) (pgd vaddr : Nat) :
    (l5_pgd_val mem pgd vaddr
       = mem.readK (pgd + pageOffsetOf (pgd + 8 * pgd_index_l5_4k vaddr)))
  ∧ (l5_p4d_val mem pgd vaddr
       = mem.readP (pageBase (l5_pt_after_pgd mem pgd vaddr)
           + pageOffsetOf (8 * p4d_index_l5_4k vaddr)))
  ∧ (l5_pmd_val mem pgd vaddr
       = mem.readP (pageBase (l5_pt_after_pud mem pgd vaddr)
           + pageOffsetOf (8 * pmd_index_l4_4k vaddr)))
  ∧ (l5_pte_val mem pgd vaddr
       = mem.readP (pageBase (l5_pt_after_pmd mem pgd vaddr)
           + pageOffsetOf (8 * pte_index_l4_4k vaddr)))
  ∧ pmd_index_l4_4k vaddr = pmd_index_l5_4k vaddr
  ∧ pte_index_l4_4k vaddr = pte_index_l5_4k vaddr
  ∧ pgd_index_l5_4k 281474976710656 ≠ pgd_index_l4_4k 281474976710656 :=
  ⟨rfl, rfl, rfl, rfl, rfl, rfl, by decide⟩

/-! ### Claims C4, C9, C10: the address classifier and kernel translation -/

/-- The user predicate is pointwise the boolean negation of the kernel
predicate: both test the same vmalloc-class membership first and then
compare against the same base, with complementary comparisons. -/
theorem uvaddr_eq_not_kvaddr (ms : MachineSpecific) (vaddr : Nat) (tc : Option Nat) :
    riscv64_is_uvaddr ms vaddr tc = !riscv64_is_kvaddr ms vaddr := by
  unfold riscv64_is_uvaddr riscv64_is_kvaddr
  cases h : riscv64_IS_VMALLOC_ADDR ms vaddr
  · simp only [Bool.false_eq_true, if_neg, ite_false]
    rw [← decide_not]
    exact decide_eq_decide.mpr (by omega)
  · simp

/-- Claim C4 counterexample: the claim asserts `riscv64_is_uvaddr` is
*not* simply the logical negation of `riscv64_is_kvaddr`, but the two
functions are extensionally exact boolean negations of one another, for
every layout, address and task context. -/
theorem c4_counterexample :
    (fun (ms : MachineSpecific) (vaddr : Nat) (tc : Option Nat) =>
        riscv64_is_uvaddr ms vaddr tc)
      = fun ms vaddr _ => !riscv64_is_kvaddr ms vaddr := by
  funext ms vaddr tc
  exact uvaddr_eq_not_kvaddr ms vaddr tc

/-- Claim C4 (amended): `riscv64_is_uvaddr` returns true exactly when
the address is not vmalloc-class and lies below `machdep->kvbase`; and
this predicate *is* extensionally the boolean negation of
`riscv64_is_kvaddr` (it is computed from its own two clauses, but the
clauses are complementary). -/
theorem c4_is_uvaddr (ms : MachineSpecific) (vaddr : Nat) (tc : Option Nat) :
    (riscv64_is_uvaddr ms vaddr tc = true
       ↔ riscv64_IS_VMALLOC_ADDR ms vaddr = false ∧ vaddr < machdepKvbase ms)
    ∧ riscv64_is_uvaddr ms vaddr tc = !riscv64_is_kvaddr ms vaddr := by
  refine ⟨?_, uvaddr_eq_not_kvaddr ms vaddr tc⟩
  unfold riscv64_is_uvaddr
  cases h : riscv64_IS_VMALLOC_ADDR ms vaddr <;> simp [h]

/-- Claim C10: `riscv64_is_uvaddr` ignores its task-context parameter
entirely — any two contexts, including the null context, give the same
classification. -/
theorem c10_is_uvaddr_ignores_task (ms : MachineSpecific) (vaddr : Nat)
    (tc tc2 : Option Nat) :
    riscv64_is_uvaddr ms vaddr tc = riscv64_is_uvaddr ms vaddr tc2
    ∧ riscv64_is_uvaddr ms vaddr tc = riscv64_is_uvaddr ms vaddr none :=
  ⟨rfl, rfl⟩

/-- Claim C9: `riscv64_kvtop` returns FALSE for a non-kernel address
without writing `*paddr`; for a kernel address that is not
vmalloc-class, with verbose off, it returns TRUE with the linear-map
translation and performs no table fill; a table walk happens only for
vmalloc-class addresses or verbose requests. -/
theorem c9_kvtop (env : KvtopEnv) (kvaddr : Nat) (verbose : Bool) :
    (riscv64_is_kvaddr env.ms kvaddr = false →
       riscv64_kvtop env kvaddr verbose = ⟨false, none, []⟩)
    ∧ (riscv64_is_kvaddr env.ms kvaddr = true →
       riscv64_IS_VMALLOC_ADDR env.ms kvaddr = false → verbose = false →
       riscv64_kvtop env kvaddr verbose = ⟨true, some (VTOP env.ms kvaddr), []⟩)
    ∧ ((riscv64_kvtop env kvaddr verbose).fills ≠ [] →
       riscv64_IS_VMALLOC_ADDR env.ms kvaddr = true ∨ verbose = true) := by
  refine ⟨fun hk => ?_, fun hk hv hverb => ?_, fun hfills => ?_⟩
  · simp [riscv64_kvtop, hk]
  · by_cases h0 : env.vt_vmalloc_start = 0 <;>
      simp [riscv64_kvtop, hk, hv, hverb, h0]
  · by_contra hcon
    push_neg at hcon
    obtain ⟨hv0, hverb0⟩ := hcon
    have hv : riscv64_IS_VMALLOC_ADDR env.ms kvaddr = false := by
      cases h : riscv64_IS_VMALLOC_ADDR env.ms kvaddr
      · rfl
      · exact absurd h hv0
    have hverb : verbose = false := by
      cases h : verbose
      · rfl
      · exact absurd h hverb0
    apply hfills
    cases hk : riscv64_is_kvaddr env.ms kvaddr
    · simp [riscv64_kvtop, hk]
    · by_cases h0 : env.vt_vmalloc_start = 0
      · simp [riscv64_kvtop, hk, h0]
      · simp [riscv64_kvtop, hk, h0, hv, hverb]

/-- A concrete layout for the kvtop witness: page-offset base 1000,
vmalloc 2000-3000, vmemmap 4000-5000, modules 6000-7000, physical base
100; bootstrap `vt->vmalloc_start` resolved (nonzero). -/
def kvtopEnvEx : KvtopEnv :=
  { ms := ⟨1000, 2000, 3000, 4000, 5000, 6000, 7000, 100⟩
    vt_vmalloc_start := 2000
    mode := VmMode.l3
    kernel_pgd := 0
    mem := zeroMem }

/-- Witness for C9: address 1500 (kernel, not vmalloc-class, verbose
off) translates by the linear map to 600 with no fills; address 500
(not a kernel address) fails without writing `*paddr`. -/
theorem c9_kvtop_witness :
    riscv64_kvtop kvtopEnvEx 1500 false = ⟨true, some 600, []⟩
    ∧ riscv64_kvtop kvtopEnvEx 500 false = ⟨false, none, []⟩ := by
  refine ⟨?_, (c9_kvtop kvtopEnvEx 500 false).1 (by decide)⟩
  exact ((c9_kvtop kvtopEnvEx 1500 false).2.1 (by decide) (by decide) rfl).trans (by decide)

/-! ### Claim C7: the PTE flag formatter -/

/-- A bar-prefixed rendering of every name in the list. -/
def barAll : List String → String
  | [] => ""
  | s :: rest => ("|" ++ s) ++ barAll rest

/-- Names joined with a bar only between consecutive elements: no
leading or trailing separator. -/
def joinBar : List String → String
  | [] => ""
  | s :: rest => s ++ barAll rest

/-- The ordered list of asserted flag names: the flags whose bit is
nonzero and set in the raw entry, in table order. -/
def assertedNames (pte : Nat) : List (String × Nat) → List String
  | [] => []
  | (nm, bit) :: rest =>
    if bit ≠ 0 ∧ pte &&& bit ≠ 0 then nm :: assertedNames pte rest
    else assertedNames pte rest

/-- With a pending separator, the emitted text is every asserted name
bar-prefixed. -/
theorem emitFlagsAux_true (pte : Nat) (l : List (String × Nat)) :
    emitFlagsAux pte l true = barAll (assertedNames pte l) := by
  induction l with
  | nil => rfl
  | cons hd tl ih =>
    obtain ⟨nm, bit⟩ := hd
    by_cases hc : bit ≠ 0 ∧ pte &&& bit ≠ 0
    · simp [emitFlagsAux, assertedNames, hc, barAll, ih]
    · simp [emitFlagsAux, assertedNames, hc, ih]

/-- Without a pending separator, the emitted text is the asserted names
joined by bars. -/
theorem emitFlagsAux_false (pte : Nat) (l : List (String × Nat)) :
    emitFlagsAux pte l false = joinBar (assertedNames pte l) := by
  induction l with
  | nil => rfl
  | cons hd tl ih =>
    obtain ⟨nm, bit⟩ := hd
    by_cases hc : bit ≠ 0 ∧ pte &&& bit ≠ 0
    · simp [emitFlagsAux, assertedNames, hc, joinBar, emitFlagsAux_true]
    · simp [emitFlagsAux, assertedNames, hc, ih]

/-- Claim C7 counterexample: the claim asserts a zero raw entry yields
the text "no mapping", but the verbose path returns before the flag
section whenever the present bit is clear (lines 366-367), so a zero
entry emits no flag section at all and the "no mapping" branch is
unreachable through `riscv64_translate_pte`. -/
theorem c7_counterexample :
    riscv64_translate_pte_flags 0 ≠ some "no mapping"
    ∧ riscv64_translate_pte_flags 0 = none := by
  exact ⟨by decide, by decide⟩

/-- Claim C7 (amended): for a present entry the flag section is exactly
the asserted flags among PRESENT, READ, WRITE, EXEC, USER, GLOBAL,
ACCESSED, DIRTY, SOFT in that fixed order, joined by a bar only between
consecutive asserted flags; an entry with the present bit clear
(including zero) produces no flag section at all; the "no mapping" text
exists only in the flag-section branch for a zero entry, which the
early return makes unreachable.  A raw entry with only PRESENT, READ
and WRITE set yields exactly "PRESENT|READ|WRITE". -/
theorem c7_pte_flags (pte : Nat) :
    (riscv64_translate_pte_flags pte
       = if pte &&& PAGE_PRESENT ≠ 0
         then some (joinBar (assertedNames pte riscv64PageFlags))
         else none)
    ∧ pteFlagSection 0 = "no mapping"
    ∧ pteFlagSection 7 = "PRESENT|READ|WRITE"
    ∧ riscv64_translate_pte_flags 7 = some "PRESENT|READ|WRITE" := by
  refine ⟨?_, by decide, by decide, by decide⟩
  unfold riscv64_translate_pte_flags pteFlagSection
  by_cases hp : pte &&& PAGE_PRESENT ≠ 0
  · rw [if_pos hp, if_pos hp]
    have hz : pte ≠ 0 := by
      intro h
      rw [h] at hp
      exact hp (by decide)
    rw [if_pos hz, emitFlagsAux_false]
  · rw [if_neg hp, if_neg hp]

/-! ### Claim C6: modules range resolution -/

/-- Claim C6: below kernel 5.13 the modules range is assigned from the
vmalloc range and the dedicated modules vmcoreinfo keys are never
consulted; from 5.13 on the modules range comes from the dedicated keys
and a missing key is the fatal `error:` exit. -/
theorem c6_va_range_modules (kv : Nat) (vm : Vmcore) :
    (kv < LINUX_VERSION 5 13 0 →
       ("NUMBER(MODULES_VADDR)" ∉ (riscv64_get_va_range kv vm).2
        ∧ "NUMBER(MODULES_END)" ∉ (riscv64_get_va_range kv vm).2)
       ∧ ∀ r, (riscv64_get_va_range kv vm).1 = some r →
           r.modules_vaddr = r.vmalloc_start_addr ∧ r.modules_end = r.vmalloc_end)
  ∧ (kv ≥ LINUX_VERSION 5 13 0 →
       (∀ r, (riscv64_get_va_range kv vm).1 = some r →
           some r.modules_vaddr = vm.lookup "NUMBER(MODULES_VADDR)"
           ∧ some r.modules_end = vm.lookup "NUMBER(MODULES_END)")
       ∧ ((vm.lookup "NUMBER(MODULES_VADDR)" = none
           ∨ vm.lookup "NUMBER(MODULES_END)" = none) →
          (riscv64_get_va_range kv vm).1 = none)) := by
  constructor
  · intro hlt
    unfold riscv64_get_va_range
    repeat' split
    all_goals first
      | exact absurd ‹kv ≥ LINUX_VERSION 5 13 0› (Nat.not_le.mpr hlt)
      | refine ⟨⟨?_, ?_⟩, fun r hr => ?_⟩
    all_goals try (simp at hr; subst hr)
    all_goals simp_all
  · intro hge
    cases hmv : vm.lookup "NUMBER(MODULES_VADDR)" with
    | none =>
      unfold riscv64_get_va_range
      repeat' split
      all_goals first
        | exact absurd hge ‹¬ kv ≥ LINUX_VERSION 5 13 0›
        | refine ⟨fun r hr => ?_, fun hmiss => ?_⟩
      all_goals simp_all
    | some mv =>
      cases hme : vm.lookup "NUMBER(MODULES_END)" with
      | none =>
        unfold riscv64_get_va_range
        repeat' split
        all_goals first
          | exact absurd hge ‹¬ kv ≥ LINUX_VERSION 5 13 0›
          | refine ⟨fun r hr => ?_, fun hmiss => ?_⟩
        all_goals try (simp at hr; subst hr)
        all_goals simp_all
      | some me2 =>
        unfold riscv64_get_va_range
        repeat' split
        all_goals first
          | exact absurd hge ‹¬ kv ≥ LINUX_VERSION 5 13 0›
          | refine ⟨fun r hr => ?_, fun hmiss => ?_⟩
        all_goals try (simp at hr; subst hr)
        all_goals simp_all

/-- A fully populated metadata store for the C6 witness. -/
def vmEx : Vmcore := ⟨fun k =>
  if k = "NUMBER(PAGE_OFFSET)" then some 100
  else if k = "NUMBER(VMALLOC_START)" then some 200
  else if k = "NUMBER(VMALLOC_END)" then some 300
  else if k = "NUMBER(VMEMMAP_START)" then some 400
  else if k = "NUMBER(VMEMMAP_END)" then some 500
  else if k = "NUMBER(KERNEL_LINK_ADDR)" then some 600
  else if k = "NUMBER(MODULES_VADDR)" then some 700
  else if k = "NUMBER(MODULES_END)" then some 800
  else none⟩

/-- The same store with the modules keys missing. -/
def vmExNoModules : Vmcore := ⟨fun k =>
  if k = "NUMBER(MODULES_VADDR)" then none
  else if k = "NUMBER(MODULES_END)" then none
  else vmEx.lookup k⟩

/-- Witness for C6: kernel 5.12.0 (encoded 330752) copies the vmalloc
range into the modules range; kernel 5.13.0 (encoded 331008) reads the
dedicated keys, and fails fatally when they are missing. -/
theorem c6_va_range_modules_witness :
    (riscv64_get_va_range 331008 vmExNoModules).1 = none
    ∧ (riscv64_get_va_range 330752 vmEx).1
        = some ⟨100, 200, 300, 400, 500, 600, 200, 300⟩
    ∧ (riscv64_get_va_range 331008 vmEx).1
        = some ⟨100, 200, 300, 400, 500, 600, 700, 800⟩ :=
  ⟨((c6_va_range_modules 331008 vmExNoModules).2 (by decide)).2 (Or.inl (by decide)),
   by decide, by decide⟩

/-! ### Claims C5 and C8: the crash register extractor -/

/-- When a note reaches the sanity checks, the loop step is exactly the
validation of that note's type, name and register block. -/
theorem crashNoteStep_eff (env : NotesEnv) (i : Nat) (ty : Nat) (nm : String) (r : Nat)
    (heff : crashNoteEff env i = some (ty, nm, r)) :
    crashNoteStep env i = crashNoteValidate ty nm r := by
  unfold crashNoteEff at heff
  unfold crashNoteStep
  cases hrd : env.readNote i with
  | none => simp [hrd] at heff
  | some buf =>
    simp only [hrd] at heff ⊢
    by_cases hns : buf.n_namesz = 0 ∧ (env.dump = DumpKind.diskdump ∨ env.dump = DumpKind.kdump)
    · rw [if_pos hns] at heff ⊢
      cases hdn : dumpNote env i with
      | none => simp [hdn] at heff
      | some fetched =>
        simp only [hdn] at heff ⊢
        by_cases hsz : ELF64_NHDR_SIZE + roundup4 fetched.n_namesz + fetched.n_descsz
            = env.note_buf_size - ELF64_NHDR_SIZE
        · rw [if_pos hsz] at heff ⊢
          simp only [Option.some.injEq, Prod.mk.injEq] at heff
          obtain ⟨rfl, rfl, rfl⟩ := heff
          rfl
        · rw [if_neg hsz] at heff ⊢
          simp only [Option.some.injEq, Prod.mk.injEq] at heff
          obtain ⟨rfl, rfl, rfl⟩ := heff
          rfl
    · rw [if_neg hns] at heff ⊢
      simp only [Option.some.injEq, Prod.mk.injEq] at heff
      obtain ⟨rfl, rfl, rfl⟩ := heff
      rfl

/-- If every cpu before `i` steps without failing and cpu `i` fails,
the loop from any start at or before `i` (with enough fuel to reach it)
returns the `fail` exit. -/
theorem crashNotesLoopFrom_none (env : NotesEnv) :
    ∀ fuel s i, s ≤ i → i < s + fuel →
      (∀ j, s ≤ j → j < i → crashNoteStep env j ≠ CpuStep.fail) →
      crashNoteStep env i = CpuStep.fail →
      crashNotesLoopFrom env fuel s = none := by
  intro fuel
  induction fuel with
  | zero => intro s i hsi hlt _ _; omega
  | succ fuel ih =>
    intro s i hsi hlt hprev hfail
    unfold crashNotesLoopFrom
    by_cases hs : s = i
    · subst hs
      rw [hfail]
    · have hsne : crashNoteStep env s ≠ CpuStep.fail :=
        hprev s (Nat.le_refl s) (by omega)
      have hrec := ih (s + 1) i (by omega) (by omega)
        (fun j hj1 hj2 => hprev j (by omega) hj2) hfail
      cases hc : crashNoteStep env s with
      | fail => exact absurd hc hsne
      | skip => rw [hrec]
      | ok r => rw [hrec]

/-- Claim C5: in Strategy A, a note whose effective type is not
`NT_PRSTATUS`, or whose name does not begin with "CORE", aborts the
entire extraction once the loop reaches it: the function returns FALSE,
the partially-filled snapshot array is freed, and `ms->crash_task_regs`
is never written. -/
theorem c5_crash_notes_abort (env : NotesEnv) (i ty : Nat) (nm : String) (r : Nat)
    (hsym : env.crash_notes_symbol = true) (hbase : env.read_base_ok = true)
    (hi : i < env.cpus)
    (hprev : ∀ j, j < i → crashNoteStep env j ≠ CpuStep.fail)
    (heff : crashNoteEff env i = some (ty, nm, r))
    (hbad : ty ≠ NT_PRSTATUS ∨ STRNEQ nm "CORE" = false) :
    riscv64_get_crash_notes env = ⟨false, none, true⟩ := by
  have hstep : crashNoteStep env i = CpuStep.fail := by
    rw [crashNoteStep_eff env i ty nm r heff]
    unfold crashNoteValidate
    rcases hbad with h | h
    · rw [if_pos h]
    · by_cases hty : ty ≠ NT_PRSTATUS
      · rw [if_pos hty]
      · rw [if_neg hty, if_pos (by simp [h])]
  have hloop : crashNotesLoopFrom env env.cpus 0 = none :=
    crashNotesLoopFrom_none env env.cpus 0 i (Nat.zero_le i) (by omega)
      (fun j _ hj2 => hprev j hj2) hstep
  unfold riscv64_get_crash_notes
  simp [hsym, hbase, hloop]

/-- The Strategy A environment for the C5 witness: two cpus, cpu 0's
note valid, cpu 1's note typed 0 instead of `NT_PRSTATUS`. -/
def crashEnvBadType : NotesEnv :=
  { cpus := 2
    dump := DumpKind.other
    diskdump_note := fun _ => none
    netdump_note := fun _ => none
    crash_notes_symbol := true
    read_base_ok := true
    readNote := fun i =>
      if i = 0 then some ⟨5, 0, 1, "CORE", 7⟩
      else some ⟨5, 0, 0, "CORE", 9⟩
    note_buf_size := 0 }

/-- Witness for C5: with cpu 1's note mistyped, the whole extraction
fails, frees the array and never attaches it — even though cpu 0's note
was valid. -/
theorem c5_crash_notes_abort_witness :
    riscv64_get_crash_notes crashEnvBadType = ⟨false, none, true⟩ :=
  c5_crash_notes_abort crashEnvBadType 1 0 "CORE" 9 rfl rfl (by decide)
    (fun j hj => by
      have hj0 : j = 0 := by omega
      subst hj0
      decide)
    (by decide)
    (Or.inl (by decide))

/-- Claim C8: in Strategy B over `cpus` logical cpus with exactly one
cpu's note absent from the dump-format locator, the extraction warns
for the missing cpu, leaves that cpu's slot zeroed, fills every other
slot from its note, and returns success — a missing per-CPU note is
never fatal here. -/
theorem c8_elf_notes_missing_note (env : NotesEnv) (j : Nat)
    (hdump : env.dump = DumpKind.diskdump ∨ env.dump = DumpKind.kdump)
    (hj : j < env.cpus)
    (hmiss : dumpNote env j = none)
    (hrest : ∀ i, i < env.cpus → i ≠ j → (dumpNote env i).isSome = true) :
    (riscv64_get_elf_notes env).ret = true
    ∧ (∃ slots, (riscv64_get_elf_notes env).crash_task_regs_write = some slots
        ∧ slots.length = env.cpus
        ∧ slots[j]? = some 0
        ∧ (∀ i nt, i < env.cpus → dumpNote env i = some nt → slots[i]? = some nt.regs))
    ∧ j ∈ (riscv64_get_elf_notes env).warned
    ∧ (∀ i, i ∈ (riscv64_get_elf_notes env).warned → i = j) := by
  have hcond : (!(env.dump = DumpKind.diskdump ∨ env.dump = DumpKind.kdump : Bool)) = false := by
    rcases hdump with h | h <;> simp [h]
  unfold riscv64_get_elf_notes
  rw [hcond]
  simp only [Bool.false_eq_true, if_false, ite_false]
  refine ⟨by trivial, ⟨_, by trivial, by simp, ?_, ?_⟩, ?_, ?_⟩
  · simp [List.getElem?_map, List.getElem?_range hj, hmiss]
  · intro i nt hi hnt
    simp [List.getElem?_map, List.getElem?_range hi, hnt]
  · simp only [List.mem_filter]
    exact ⟨List.mem_range.mpr hj, by simp [hmiss]⟩
  · intro i hi
    simp only [List.mem_filter, List.mem_range] at hi
    obtain ⟨hilt, hnone⟩ := hi
    by_contra hne
    have hs := hrest i hilt hne
    have hn2 : dumpNote env i = none := by simpa using hnone
    rw [hn2] at hs
    simp at hs

/-- The Strategy B environment for the C8 witness: three cpus on a
disk dump, cpu 1's note absent, cpus 0 and 2 carrying register blocks
10 and 12. -/
def elfEnvOneMissing : NotesEnv :=
  { cpus := 3
    dump := DumpKind.diskdump
    diskdump_note := fun i => if i = 1 then none else some ⟨4, 0, 1, "CORE", i + 10⟩
    netdump_note := fun _ => none
    crash_notes_symbol := false
    read_base_ok := true
    readNote := fun _ => none
    note_buf_size := 0 }

/-- Witness for C8: two populated snapshots, one zeroed slot, a warning
exactly for cpu 1, and overall success. -/
theorem c8_elf_notes_missing_note_witness :
    (riscv64_get_elf_notes elfEnvOneMissing).ret = true
    ∧ (riscv64_get_elf_notes elfEnvOneMissing).crash_task_regs_write = some [10, 0, 12]
    ∧ (riscv64_get_elf_notes elfEnvOneMissing).warned = [1] := by
  have h := c8_elf_notes_missing_note elfEnvOneMissing 1 (Or.inl rfl) (by decide) (by decide)
    (fun i hi hne => by
      have hi3 : i < 3 := hi
      have : i = 0 ∨ i = 1 ∨ i = 2 := by omega
      rcases this with rfl | rfl | rfl
      · decide
      · exact absurd rfl hne
      · decide)
  exact ⟨h.1, by decide, by decide⟩

end Riscv64
